import Mathlib

/-!
Verification of the Patternfly-5 Select / CheckboxSelect widget wrappers
(`widgetastic_patternfly5/components/menus/select.py`).

The widgets are thin adapters over a generic dropdown collaborator and a
browser/DOM collaborator.  We embed them shallowly: the live page is a
`MenuState` (open/closed flag, the rendered item rows, the trigger button
text), browser actions are explicit state-passing functions, and Python
exceptions become `Except Err`.  The state additionally carries two
instrumentation counters, `closeCount` (number of `close()` invocations)
and `clickCount` (number of toggle clicks), used to state the
close-accounting and idempotence properties.

The dropdown collaborator (`dropdown.py`) and the browser API are not part
of the analysed file; the definitions embedding them are modelled from the
specification and say so in their doc comments.  Everything under
`BaseSelect` / `BaseCheckboxSelect` is translated directly from
`select.py`.
-/

set_option autoImplicit false

namespace WPF5

/-- A rendered menu item row (`li.pf-v5-c-menu__list-item`): its visible
label text, whether its toggle `input` is selected, whether the row carries
the `pf-m-disabled` style class, and whether the row contains an `input`
toggle control at all (the checkbox `ITEM_LOCATOR` appends `//input` to the
row locator, so lookup through it fails on rows without one). -/
structure Item where
  label : String
  selected : Bool
  disabled : Bool
  hasInput : Bool
  deriving Repr, DecidableEq

/-- The live state of one select widget's DOM subtree: menu open/closed,
the rendered rows in document order, and the trigger button's text.
`closeCount` counts `close()` invocations and `clickCount` counts toggle
clicks; both are instrumentation and are never read by the widget code. -/
structure MenuState where
  isOpen : Bool
  items : List Item
  buttonText : String
  closeCount : Nat
  clickCount : Nat
  deriving Repr, DecidableEq

/-- The exceptions crossing the widget boundary.  `SelectItemNotFound` and
`SelectItemDisabled` carry their format arguments as structured payloads:
the requested item and the item lists interpolated into the message
(`available` is `none` for the `item_enabled` raise site, whose message
names no items). -/
inductive Err where
  | DropdownItemNotFound
  | DropdownItemDisabled
  | NoSuchElementException
  | SelectItemNotFound (item : String) (available : Option (List String))
  | SelectItemDisabled (item : String) (enabledItems : List String)
  deriving Repr, DecidableEq

deriving instance DecidableEq for Except

/-- The single-select `ITEM_LOCATOR` matcher: a row whose normalized text
equals the requested item. -/
def labelIs (l : String) (it : Item) : Bool := it.label == l

/-- The checkbox `ITEM_LOCATOR` matcher (`ITEM_LOCATOR_BASE//input`): a row
whose text equals the requested item and which contains an `input`. -/
def inputOf (l : String) (it : Item) : Bool := it.label == l && it.hasInput

/-- Modelled from the spec: the dropdown collaborator's `open()` —
scoped acquisition of the open state; idempotent. -/
def Dropdown.openMenu (s : MenuState) : MenuState := { s with isOpen := true }

/-- Modelled from the spec: the dropdown collaborator's `close()` —
scoped release of the open state.  Each invocation is counted. -/
def Dropdown.closeMenu (s : MenuState) : MenuState :=
  { s with isOpen := false, closeCount := s.closeCount + 1 }

/-- Modelled from the spec: the dropdown collaborator's `items` —
the list of rendered item labels. -/
def Dropdown.itemLabels (s : MenuState) : List String := s.items.map (·.label)

/-- Modelled from the spec: the dropdown collaborator's `enabled_items` —
the list of labels of the enabled rendered items. -/
def Dropdown.enabled_items (s : MenuState) : List String :=
  (s.items.filter (fun it => !it.disabled)).map (·.label)

/-- Modelled from the spec: the dropdown collaborator's
`item_element(item, close)` — opens the menu if not already open, looks the
item up through the subclass's `ITEM_LOCATOR` (the `matcher`), raising
`DropdownItemNotFound` when no element matches; closes per the flag.  The
returned handle is the first matching row (a snapshot, valid until the next
state change). -/
def Dropdown.item_element (matcher : Item → Bool) (close : Bool) (s : MenuState) :
    Except Err Item × MenuState :=
  let s1 := Dropdown.openMenu s
  match s1.items.find? matcher with
  | some it => (.ok it, if close then Dropdown.closeMenu s1 else s1)
  | none => (.error .DropdownItemNotFound, s1)

/-- Modelled from the spec: the dropdown collaborator's `item_select(item)`
— opens the menu if closed, selects the item (the single-select selection is
displayed as the trigger button text), closes the menu; raises
`DropdownItemNotFound` when the item is absent and `DropdownItemDisabled`
when it is present but disabled. -/
def Dropdown.item_select (item : String) (s : MenuState) : Except Err Unit × MenuState :=
  let s1 := Dropdown.openMenu s
  match s1.items.find? (labelIs item) with
  | none => (.error .DropdownItemNotFound, s1)
  | some it =>
      if it.disabled then (.error .DropdownItemDisabled, s1)
      else (.ok (), Dropdown.closeMenu { s1 with buttonText := item })

/-- Toggle the selected state of the first row matching the checkbox item
locator for `l` (the row the element handle denotes). -/
def clickFirstInput (l : String) : List Item → List Item
  | [] => []
  | it :: rest =>
      if inputOf l it then { it with selected := !it.selected } :: rest
      else it :: clickFirstInput l rest

/-- Modelled from the spec: `element.click()` on the toggle `input` handle
returned by the checkbox item lookup — toggles that input's selected state.
The handle denotes the first locator match in the current state. -/
def Browser.click_input (l : String) (s : MenuState) : MenuState :=
  { s with items := clickFirstInput l s.items, clickCount := s.clickCount + 1 }

/-- `BaseSelect.item_element(item, close)` (select.py:33-42): delegates to
the dropdown lookup, translating `DropdownItemNotFound` into
`SelectItemNotFound` whose message interpolates `self.items`.  Generic over
the subclass's `ITEM_LOCATOR` matcher and `items` property, which Python
resolves dynamically. -/
def BaseSelect.item_element_gen (matcher : Item → Bool)
    (itemsProp : MenuState → List String × MenuState)
    (item : String) (close : Bool) (s : MenuState) : Except Err Item × MenuState :=
  match Dropdown.item_element matcher close s with
  | (.error .DropdownItemNotFound, s1) =>
      let (avail, s2) := itemsProp s1
      (.error (.SelectItemNotFound item (some avail)), s2)
  | r => r

/-- `BaseSelect.item_element` as inherited by the single-value `Select`:
row matcher `ITEM_LOCATOR`, `items` resolved to the dropdown's label
list. -/
def Select.item_element (item : String) (close : Bool) (s : MenuState) :
    Except Err Item × MenuState :=
  BaseSelect.item_element_gen (labelIs item) (fun s => (Dropdown.itemLabels s, s)) item close s

/-- `BaseSelect.item_select(item)` (select.py:44-61): delegates to the
dropdown selection, translating `DropdownItemDisabled` into
`SelectItemDisabled` whose message interpolates `self.enabled_items`. -/
def BaseSelect.item_select (item : String) (s : MenuState) : Except Err Unit × MenuState :=
  match Dropdown.item_select item s with
  | (.error .DropdownItemDisabled, s1) =>
      (.error (.SelectItemDisabled item (Dropdown.enabled_items s1)), s1)
  | r => r

/-- `BaseSelect.read()` (select.py:67-69): `self.browser.text(BUTTON_LOCATOR)`
— the trigger button's current visible text.  The browser text query is
modelled from the spec as an effect-free read. -/
def BaseSelect.read (s : MenuState) : String × MenuState := (s.buttonText, s)

/-- `BaseCheckboxSelect._get_items(close=False)` (select.py:179-191): opens
the menu, collects the text of every row matched by `ITEMS_LOCATOR` in
rendered order, optionally closes. -/
def BaseCheckboxSelect.get_items (close : Bool) (s : MenuState) : List String × MenuState :=
  let s1 := Dropdown.openMenu s
  let result := s1.items.map (·.label)
  (result, if close then Dropdown.closeMenu s1 else s1)

/-- `BaseCheckboxSelect.items` property (select.py:193-196):
`_get_items(close=True)`. -/
def BaseCheckboxSelect.itemsProp (s : MenuState) : List String × MenuState :=
  BaseCheckboxSelect.get_items true s

/-- `BaseSelect.item_element` as inherited by `BaseCheckboxSelect`: the
checkbox `ITEM_LOCATOR` targets the row's `input`, and `self.items` resolves
to the overriding `items` property (which opens and closes the menu). -/
def BaseCheckboxSelect.item_element (item : String) (close : Bool) (s : MenuState) :
    Except Err Item × MenuState :=
  BaseSelect.item_element_gen (inputOf item) BaseCheckboxSelect.itemsProp item close s

/-- The `for item in items` loop body of `BaseCheckboxSelect.item_select`
(select.py:100-104): look the item's toggle up (`close=False`) and click it
only when it is not already selected. -/
def BaseCheckboxSelect.item_select_loop :
    List String → MenuState → Except Err Unit × MenuState
  | [], s => (.ok (), s)
  | item :: rest, s =>
      match BaseCheckboxSelect.item_element item false s with
      | (.error e, s1) => (.error e, s1)
      | (.ok el, s1) =>
          let s2 := if !el.selected then Browser.click_input item s1 else s1
          BaseCheckboxSelect.item_select_loop rest s2

/-- `BaseCheckboxSelect.item_select(items, close=True)` (select.py:90-107):
runs the per-item loop inside `try:`, with `finally: if close: self.close()`.
The Python method normalizes a single label to a one-element list; the
embedding takes the normalized list. -/
def BaseCheckboxSelect.item_select (items : List String) (close : Bool) (s : MenuState) :
    Except Err Unit × MenuState :=
  let (r, s1) := BaseCheckboxSelect.item_select_loop items s
  (r, if close then Dropdown.closeMenu s1 else s1)

/-- The `for item in items` loop body of `BaseCheckboxSelect.item_deselect`
(select.py:119-123): click the item's toggle only when it is currently
selected. -/
def BaseCheckboxSelect.item_deselect_loop :
    List String → MenuState → Except Err Unit × MenuState
  | [], s => (.ok (), s)
  | item :: rest, s =>
      match BaseCheckboxSelect.item_element item false s with
      | (.error e, s1) => (.error e, s1)
      | (.ok el, s1) =>
          let s2 := if el.selected then Browser.click_input item s1 else s1
          BaseCheckboxSelect.item_deselect_loop rest s2

/-- `BaseCheckboxSelect.item_deselect(items, close=True)` (select.py:109-126):
same `try`/`finally` shape as `item_select`. -/
def BaseCheckboxSelect.item_deselect (items : List String) (close : Bool) (s : MenuState) :
    Except Err Unit × MenuState :=
  let (r, s1) := BaseCheckboxSelect.item_deselect_loop items s
  (r, if close then Dropdown.closeMenu s1 else s1)

/-- `BaseCheckboxSelect.item_enabled(item, close=True)` (select.py:128-145):
opens the menu, looks the row up by `ITEM_LOCATOR_BASE` (the list entry, not
its toggle), reports enabled as the absence of the `pf-m-disabled` class,
closes per the flag, and returns; a `NoSuchElementException` from the lookup
is caught and re-raised as `SelectItemNotFound` (whose message names no
available items).  There is no `finally`: nothing closes the menu on the
raising path. -/
def BaseCheckboxSelect.item_enabled (item : String) (close : Bool) (s : MenuState) :
    Except Err Bool × MenuState :=
  let s1 := Dropdown.openMenu s
  match s1.items.find? (labelIs item) with
  | none => (.error (.SelectItemNotFound item none), s1)
  | some el =>
      let is_enabled := !el.disabled
      let s2 := if close then Dropdown.closeMenu s1 else s1
      (.ok is_enabled, s2)

/-- The `for item, value in items.items()` loop of `BaseCheckboxSelect.fill`
(select.py:155-159): `item_select(item, close=False)` for `True` entries,
`item_deselect(item, close=False)` for `False` ones (each single label is
normalized to a one-element list inside the callee). -/
def BaseCheckboxSelect.fill_loop :
    List (String × Bool) → MenuState → Except Err Unit × MenuState
  | [], s => (.ok (), s)
  | (item, value) :: rest, s =>
      match (if value then BaseCheckboxSelect.item_select [item] false s
             else BaseCheckboxSelect.item_deselect [item] false s) with
      | (.ok _, s1) => BaseCheckboxSelect.fill_loop rest s1
      | (.error e, s1) => (.error e, s1)

/-- `BaseCheckboxSelect.fill(items)` (select.py:147-161): the entry loop
inside `try:`, with `finally: self.close()`.  A Python dict in insertion
order is embedded as an association list. -/
def BaseCheckboxSelect.fill (entries : List (String × Bool)) (s : MenuState) :
    Except Err Unit × MenuState :=
  let (r, s1) := BaseCheckboxSelect.fill_loop entries s
  (r, Dropdown.closeMenu s1)

/-- What `read` records for one row: the row's `input` child's selected
state, or `False` when the `NoSuchElementException` branch fires because the
row has no `input`. -/
def rowSelected (it : Item) : Bool := it.hasInput && it.selected

/-- Python dict assignment `d[k] = v` on an insertion-ordered dict embedded
as an association list: overwrite the value in place when the key exists,
append otherwise. -/
def dictInsert : List (String × Bool) → String → Bool → List (String × Bool)
  | [], k, v => [(k, v)]
  | (k1, v1) :: rest, k, v =>
      if k1 == k then (k, v) :: rest else (k1, v1) :: dictInsert rest k v

/-- `BaseCheckboxSelect.read()` (select.py:163-177): under `with
self.opened():` (open on entry, close on exit), iterates every row matched
by `ITEMS_LOCATOR` in rendered order and records its label against its
toggle state. -/
def BaseCheckboxSelect.read (s : MenuState) : List (String × Bool) × MenuState :=
  let s1 := Dropdown.openMenu s
  let selected := s1.items.foldl (fun acc el => dictInsert acc el.label (rowSelected el)) []
  (selected, Dropdown.closeMenu s1)

/-- What a successful single-item toggle-to-state leaves in the DOM: the
first row matching the checkbox item locator for `l` gets selected state
`v`; every other row is untouched. -/
def setSel (l : String) (v : Bool) : List Item → List Item
  | [] => []
  | it :: rest =>
      if inputOf l it then { it with selected := v } :: rest
      else it :: setSel l v rest

/-- The rendered labels with duplicates dropped (first occurrence kept),
skipping labels already in `seen`: the key order of a Python dict built by
iterating rows. -/
def dedupNew (seen : List String) : List String → List String
  | [] => []
  | l :: rest =>
      if l ∈ seen then dedupNew seen rest else l :: dedupNew (l :: seen) rest

/-- A concrete three-row checkbox menu (rows `a`, `b`, `c`; `b` initially
selected) used to instantiate the universally quantified theorems. -/
def exMenu : MenuState :=
  { isOpen := false
    items := [
      { label := "a", selected := false, disabled := false, hasInput := true },
      { label := "b", selected := true, disabled := false, hasInput := true },
      { label := "c", selected := false, disabled := false, hasInput := true }]
    buttonText := ""
    closeCount := 0
    clickCount := 0 }

/-- A concrete single-select menu with `Beta` disabled, matching the spec's
scenario. -/
def exSingle : MenuState :=
  { isOpen := false
    items := [
      { label := "Alpha", selected := false, disabled := false, hasInput := false },
      { label := "Beta", selected := false, disabled := true, hasInput := false },
      { label := "Gamma", selected := false, disabled := false, hasInput := false }]
    buttonText := "Filter"
    closeCount := 0
    clickCount := 0 }

/-! ## Helper lemmas -/

/-- `item_select` is the loop followed by the `finally` close. -/
theorem item_select_eq (items : List String) (c : Bool) (s : MenuState) :
    BaseCheckboxSelect.item_select items c s
      = ((BaseCheckboxSelect.item_select_loop items s).1,
         if c then Dropdown.closeMenu (BaseCheckboxSelect.item_select_loop items s).2
         else (BaseCheckboxSelect.item_select_loop items s).2) := by
  unfold BaseCheckboxSelect.item_select
  cases h : BaseCheckboxSelect.item_select_loop items s with
  | mk r s1 => simp [h]

/-- `item_deselect` is the loop followed by the `finally` close. -/
theorem item_deselect_eq (items : List String) (c : Bool) (s : MenuState) :
    BaseCheckboxSelect.item_deselect items c s
      = ((BaseCheckboxSelect.item_deselect_loop items s).1,
         if c then Dropdown.closeMenu (BaseCheckboxSelect.item_deselect_loop items s).2
         else (BaseCheckboxSelect.item_deselect_loop items s).2) := by
  unfold BaseCheckboxSelect.item_deselect
  cases h : BaseCheckboxSelect.item_deselect_loop items s with
  | mk r s1 => simp [h]

/-- `fill` is the entry loop followed by the unconditional `finally` close. -/
theorem fill_eq (entries : List (String × Bool)) (s : MenuState) :
    BaseCheckboxSelect.fill entries s
      = ((BaseCheckboxSelect.fill_loop entries s).1,
         Dropdown.closeMenu (BaseCheckboxSelect.fill_loop entries s).2) := by
  unfold BaseCheckboxSelect.fill
  cases h : BaseCheckboxSelect.fill_loop entries s with
  | mk r s1 => simp [h]

/-- The selected flag plays no part in the checkbox item locator. -/
@[simp] theorem inputOf_set_selected (l2 : String) (it : Item) (v : Bool) :
    inputOf l2 { it with selected := v } = inputOf l2 it := rfl

/-- The selected flag plays no part in the row locator. -/
@[simp] theorem labelIs_set_selected (l2 : String) (it : Item) (v : Bool) :
    labelIs l2 { it with selected := v } = labelIs l2 it := rfl

/-- A row matching the checkbox item locator bears the label and contains
an input. -/
theorem inputOf_spec {l : String} {it : Item} (h : inputOf l it = true) :
    it.label = l ∧ it.hasInput = true := by
  simpa [inputOf, Bool.and_eq_true, beq_iff_eq] using h

/-- A row whose label is not `l2` fails the checkbox item locator for
`l2`. -/
theorem inputOf_of_ne {l l2 : String} {it : Item} (hm : inputOf l it = true) (hne : l2 ≠ l) :
    inputOf l2 it = false := by
  obtain ⟨hl, _⟩ := inputOf_spec hm
  simp [inputOf, hl]
  intro h
  exact absurd h.symm hne

/-- Toggling the first locator match to the state it already has changes
nothing. -/
theorem setSel_eq_self {l : String} {v : Bool} {its : List Item} {el : Item}
    (h : its.find? (inputOf l) = some el) (hv : el.selected = v) :
    setSel l v its = its := by
  induction its with
  | nil => simp at h
  | cons it rest ih =>
      by_cases hm : inputOf l it = true
      · rw [List.find?_cons_of_pos _ hm] at h
        injection h with h
        subst h
        subst hv
        simp [setSel, hm]
      · rw [List.find?_cons_of_neg _ hm] at h
        simp [setSel, hm, ih h]

/-- When the first locator match is currently in state `!v`, clicking it is
exactly toggling it to `v`. -/
theorem clickFirst_eq_setSel {l : String} {v : Bool} {its : List Item} {el : Item}
    (h : its.find? (inputOf l) = some el) (hv : el.selected = !v) :
    clickFirstInput l its = setSel l v its := by
  induction its with
  | nil => simp at h
  | cons it rest ih =>
      by_cases hm : inputOf l it = true
      · rw [List.find?_cons_of_pos _ hm] at h
        injection h with h
        subst h
        simp [clickFirstInput, setSel, hm, hv]
      · rw [List.find?_cons_of_neg _ hm] at h
        simp [clickFirstInput, setSel, hm, ih h]

/-- How `setSel` interacts with a later checkbox-locator lookup: the lookup
for the written label sees the written state, every other lookup is
untouched. -/
theorem find?_inputOf_setSel (l l2 : String) (v : Bool) (its : List Item) :
    (setSel l v its).find? (inputOf l2)
      = if l2 = l then (its.find? (inputOf l)).map (fun it => { it with selected := v })
        else its.find? (inputOf l2) := by
  induction its with
  | nil => simp [setSel]
  | cons it rest ih =>
      by_cases hm : inputOf l it = true
      · by_cases he : l2 = l
        · subst he
          simp [setSel, hm, List.find?_cons_of_pos]
        · have hm2 : inputOf l2 it = false := inputOf_of_ne hm he
          simp [setSel, hm, he, List.find?_cons_of_neg, hm2]
      · by_cases he : l2 = l
        · subst he
          simp only [setSel, if_neg hm]
          rw [List.find?_cons_of_neg _ hm, List.find?_cons_of_neg _ hm]
          simpa using ih
        · by_cases hm2 : inputOf l2 it = true
          · simp only [setSel, if_neg hm]
            rw [List.find?_cons_of_pos _ hm2, List.find?_cons_of_pos _ hm2]
            simp [he]
          · simp only [setSel, if_neg hm]
            rw [List.find?_cons_of_neg _ hm2, List.find?_cons_of_neg _ hm2]
            simpa [he] using ih

/-- How `setSel` interacts with a later row-locator lookup: for the written
label the first row is returned with the written state when it carries an
input, unchanged otherwise; other labels are untouched. -/
theorem find?_labelIs_setSel (l l2 : String) (v : Bool) (its : List Item) :
    (setSel l v its).find? (labelIs l2)
      = if l2 = l then
          (its.find? (labelIs l)).map
            (fun it => if it.hasInput then { it with selected := v } else it)
        else its.find? (labelIs l2) := by
  induction its with
  | nil => simp [setSel]
  | cons it rest ih =>
      by_cases hm : inputOf l it = true
      · obtain ⟨hl, hi⟩ := inputOf_spec hm
        by_cases he : l2 = l
        · subst he
          have hlab : labelIs l2 it = true := by simp [labelIs, hl]
          have hlab2 : labelIs l2 { it with selected := v } = true := by simp [labelIs, hl]
          simp only [setSel, if_pos hm]
          rw [List.find?_cons_of_pos _ hlab2, List.find?_cons_of_pos _ hlab]
          simp [hi]
        · have hlab : labelIs l2 it = false := by
            simp [labelIs, hl]
            intro h
            exact absurd h.symm he
          simp [setSel, hm, he, List.find?_cons_of_neg, hlab]
      · by_cases hm2 : labelIs l2 it = true
        · by_cases he : l2 = l
          · subst he
            have hl : it.label = l2 := by simpa [labelIs, beq_iff_eq] using hm2
            have hni : it.hasInput = false := by
              cases hx : it.hasInput with
              | false => rfl
              | true => exact absurd (by simp [inputOf, hl, hx]) hm
            simp only [setSel, if_neg hm]
            rw [List.find?_cons_of_pos _ hm2, List.find?_cons_of_pos _ hm2]
            simp [hni]
          · simp only [setSel, if_neg hm]
            rw [List.find?_cons_of_pos _ hm2, List.find?_cons_of_pos _ hm2]
            simp [he]
        · by_cases he : l2 = l
          · subst he
            simp only [setSel, if_neg hm]
            rw [List.find?_cons_of_neg _ hm2, List.find?_cons_of_neg _ hm2]
            simpa using ih
          · simp only [setSel, if_neg hm]
            rw [List.find?_cons_of_neg _ hm2, List.find?_cons_of_neg _ hm2]
            simpa [he] using ih

/-- `setSel` preserves the rendered label sequence. -/
theorem labels_setSel (l : String) (v : Bool) (its : List Item) :
    (setSel l v its).map (·.label) = its.map (·.label) := by
  induction its with
  | nil => rfl
  | cons it rest ih => by_cases hm : inputOf l it = true <;> simp [setSel, hm, ih]

/-- A successful checkbox item lookup with `close=False` returns the first
locator match and leaves the menu open. -/
theorem item_element_found (l : String) (s : MenuState) (el : Item)
    (h : s.items.find? (inputOf l) = some el) :
    BaseCheckboxSelect.item_element l false s = (.ok el, Dropdown.openMenu s) := by
  simp [BaseCheckboxSelect.item_element, BaseSelect.item_element_gen, Dropdown.item_element,
        Dropdown.openMenu, h]

/-- A failed checkbox item lookup raises `SelectItemNotFound` carrying the
full current label list; building that message (the `items` property)
closes the menu once. -/
theorem item_element_absent (l : String) (s : MenuState)
    (h : s.items.find? (inputOf l) = none) :
    BaseCheckboxSelect.item_element l false s
      = (.error (.SelectItemNotFound l (some (Dropdown.itemLabels s))),
         { s with isOpen := false, closeCount := s.closeCount + 1 }) := by
  simp [BaseCheckboxSelect.item_element, BaseSelect.item_element_gen, Dropdown.item_element,
        BaseCheckboxSelect.itemsProp, BaseCheckboxSelect.get_items,
        Dropdown.openMenu, Dropdown.closeMenu, Dropdown.itemLabels, h]

/-- Full characterization of a present-item `item_select([l], c)`: it
succeeds, drives the item's toggle to selected, clicks exactly when the
item was not already selected, and closes exactly when `c` is set. -/
theorem item_select_single_found (l : String) (c : Bool) (s : MenuState) (el : Item)
    (h : s.items.find? (inputOf l) = some el) :
    BaseCheckboxSelect.item_select [l] c s
      = (.ok (), { s with
          isOpen := !c,
          items := setSel l true s.items,
          closeCount := s.closeCount + (if c then 1 else 0),
          clickCount := s.clickCount + (if el.selected then 0 else 1) }) := by
  rw [item_select_eq]
  have hloop : BaseCheckboxSelect.item_select_loop [l] s
      = (.ok (), if el.selected then Dropdown.openMenu s
                 else Browser.click_input l (Dropdown.openMenu s)) := by
    simp only [BaseCheckboxSelect.item_select_loop, item_element_found l s el h]
    cases hsel : el.selected <;> simp [BaseCheckboxSelect.item_select_loop]
  rw [hloop]
  cases hsel : el.selected
  · have hset : clickFirstInput l s.items = setSel l true s.items :=
      clickFirst_eq_setSel h (by simp [hsel])
    cases c <;>
      simp [Browser.click_input, Dropdown.openMenu, Dropdown.closeMenu, hset]
  · have hset : setSel l true s.items = s.items := setSel_eq_self h hsel
    cases c <;> simp [Dropdown.openMenu, Dropdown.closeMenu, hset]

/-- Full characterization of a present-item `item_deselect([l], c)`:
symmetric to selection, clicking exactly when the item was selected. -/
theorem item_deselect_single_found (l : String) (c : Bool) (s : MenuState) (el : Item)
    (h : s.items.find? (inputOf l) = some el) :
    BaseCheckboxSelect.item_deselect [l] c s
      = (.ok (), { s with
          isOpen := !c,
          items := setSel l false s.items,
          closeCount := s.closeCount + (if c then 1 else 0),
          clickCount := s.clickCount + (if el.selected then 1 else 0) }) := by
  rw [item_deselect_eq]
  have hloop : BaseCheckboxSelect.item_deselect_loop [l] s
      = (.ok (), if el.selected then Browser.click_input l (Dropdown.openMenu s)
                 else Dropdown.openMenu s) := by
    simp only [BaseCheckboxSelect.item_deselect_loop, item_element_found l s el h]
  rw [hloop]
  cases hsel : el.selected
  · have hset : setSel l false s.items = s.items := setSel_eq_self h hsel
    cases c <;> simp [Dropdown.openMenu, Dropdown.closeMenu, hset]
  · have hset : clickFirstInput l s.items = setSel l false s.items :=
      clickFirst_eq_setSel h (by simp [hsel])
    cases c <;>
      simp [Browser.click_input, Dropdown.openMenu, Dropdown.closeMenu, hset]

/-- Full characterization of an absent-item `item_select([l], c)`: the
translated `SelectItemNotFound` propagates, the message construction
closes the menu once, and the `finally` close runs on top when `c` is
set. -/
theorem item_select_single_absent (l : String) (c : Bool) (s : MenuState)
    (h : s.items.find? (inputOf l) = none) :
    BaseCheckboxSelect.item_select [l] c s
      = (.error (.SelectItemNotFound l (some (Dropdown.itemLabels s))),
         { s with isOpen := false,
                  closeCount := s.closeCount + 1 + (if c then 1 else 0) }) := by
  rw [item_select_eq]
  have hloop : BaseCheckboxSelect.item_select_loop [l] s
      = (.error (.SelectItemNotFound l (some (Dropdown.itemLabels s))),
         { s with isOpen := false, closeCount := s.closeCount + 1 }) := by
    simp [BaseCheckboxSelect.item_select_loop, item_element_absent l s h]
  rw [hloop]
  cases c <;> simp [Dropdown.closeMenu]

/-- Full characterization of an absent-item `item_deselect([l], c)`: same
as for `item_select`. -/
theorem item_deselect_single_absent (l : String) (c : Bool) (s : MenuState)
    (h : s.items.find? (inputOf l) = none) :
    BaseCheckboxSelect.item_deselect [l] c s
      = (.error (.SelectItemNotFound l (some (Dropdown.itemLabels s))),
         { s with isOpen := false,
                  closeCount := s.closeCount + 1 + (if c then 1 else 0) }) := by
  rw [item_deselect_eq]
  have hloop : BaseCheckboxSelect.item_deselect_loop [l] s
      = (.error (.SelectItemNotFound l (some (Dropdown.itemLabels s))),
         { s with isOpen := false, closeCount := s.closeCount + 1 }) := by
    simp [BaseCheckboxSelect.item_deselect_loop, item_element_absent l s h]
  rw [hloop]
  cases c <;> simp [Dropdown.closeMenu]

/-! ## Claims -/

/-- C9: `BaseSelect.read` returns the trigger button's current visible text
as the single selected value and returns the state unchanged — it neither
opens nor closes the menu nor clicks anything, and it places no requirement
on the menu being open (the equation holds for every state, open or
closed). -/
theorem base_select_read_pure (s : MenuState) :
    BaseSelect.read s = (s.buttonText, s) := rfl

/-- C2: for every `item_select`/`item_deselect` call with `close=True`, the
menu is closed on exit — also when an error (such as `SelectItemNotFound`
for an absent label) aborts the per-item loop midway — and the call's result
is exactly the loop's result, so the original error still propagates to the
caller. -/
theorem checkbox_select_deselect_close_guarantee (items : List String) (s : MenuState) :
    ((BaseCheckboxSelect.item_select items true s).2.isOpen = false
      ∧ (BaseCheckboxSelect.item_select items true s).1
          = (BaseCheckboxSelect.item_select_loop items s).1)
    ∧ ((BaseCheckboxSelect.item_deselect items true s).2.isOpen = false
      ∧ (BaseCheckboxSelect.item_deselect items true s).1
          = (BaseCheckboxSelect.item_deselect_loop items s).1) := by
  rw [item_select_eq, item_deselect_eq]
  simp [Dropdown.closeMenu]

/-- C5: when the base dropdown lookup fails with `DropdownItemNotFound`,
`BaseSelect.item_element` (as inherited by the single-value `Select`)
raises `SelectItemNotFound` whose message payload enumerates exactly the
currently available item labels. -/
theorem select_item_element_not_found_message (s : MenuState) (item : String) (c : Bool)
    (h : (Dropdown.item_element (labelIs item) c s).1 = .error .DropdownItemNotFound) :
    Select.item_element item c s
      = (.error (.SelectItemNotFound item (some (Dropdown.itemLabels s))),
         Dropdown.openMenu s) := by
  cases hf : s.items.find? (labelIs item) with
  | some it =>
      exfalso
      simp [Dropdown.item_element, Dropdown.openMenu, hf] at h
  | none =>
      simp [Select.item_element, BaseSelect.item_element_gen, Dropdown.item_element, hf,
            Dropdown.itemLabels, Dropdown.openMenu]

/-- C5 witness: at the spec's scenario, looking up `Delta` among
`Alpha, Beta, Gamma` fails and the raised error carries exactly those
labels. -/
theorem select_item_element_not_found_message_witness :
    Select.item_element "Delta" true exSingle
      = (.error (.SelectItemNotFound "Delta" (some ["Alpha", "Beta", "Gamma"])),
         Dropdown.openMenu exSingle) :=
  select_item_element_not_found_message exSingle "Delta" true (by decide)

/-- C6: when the requested item is present but disabled (the dropdown
lookup finds it and it carries the disabled marker), `BaseSelect.item_select`
raises `SelectItemDisabled` whose message payload enumerates exactly the
currently enabled items. -/
theorem select_item_select_disabled_message (s : MenuState) (item : String) (el : Item)
    (hfind : s.items.find? (labelIs item) = some el) (hdis : el.disabled = true) :
    BaseSelect.item_select item s
      = (.error (.SelectItemDisabled item (Dropdown.enabled_items s)),
         Dropdown.openMenu s) := by
  simp [BaseSelect.item_select, Dropdown.item_select, Dropdown.openMenu,
        Dropdown.enabled_items, hfind, hdis]

/-- C6 witness: at the spec's scenario, selecting the disabled `Beta` raises
`SelectItemDisabled` listing exactly the enabled `Alpha` and `Gamma`. -/
theorem select_item_select_disabled_message_witness :
    BaseSelect.item_select "Beta" exSingle
      = (.error (.SelectItemDisabled "Beta" ["Alpha", "Gamma"]),
         Dropdown.openMenu exSingle) :=
  select_item_select_disabled_message exSingle "Beta"
    ⟨"Beta", false, true, false⟩ (by decide) rfl

/-- C1 counterexample: on the concrete menu `exMenu` (closed, rows
`a`, `b`, `c`), `item_enabled("x", close=True)` raises `SelectItemNotFound`
— and the menu is left in the open state, contradicting the claim that
every exit path of `item_enabled` ends with the menu closed. -/
theorem item_enabled_leaves_menu_open_cex :
    (BaseCheckboxSelect.item_enabled "x" true exMenu).1
        = .error (.SelectItemNotFound "x" none)
      ∧ (BaseCheckboxSelect.item_enabled "x" true exMenu).2.isOpen = true := by
  exact ⟨rfl, rfl⟩

/-- C1 (amended): `item_enabled(item, close=True)` raises
`SelectItemNotFound` when the item's list entry is absent, but only the
normal-return path closes the menu: on the raising path the menu is left
open (there is no `finally` in `item_enabled`), while on the normal path
with `close=True` the call reports the enabled state and the menu ends
closed. -/
theorem item_enabled_paths (s : MenuState) (item : String) :
    (s.items.find? (labelIs item) = none →
        BaseCheckboxSelect.item_enabled item true s
          = (.error (.SelectItemNotFound item none), Dropdown.openMenu s)
        ∧ (BaseCheckboxSelect.item_enabled item true s).2.isOpen = true)
    ∧ (∀ el, s.items.find? (labelIs item) = some el →
        BaseCheckboxSelect.item_enabled item true s
          = (.ok (!el.disabled), Dropdown.closeMenu (Dropdown.openMenu s))
        ∧ (BaseCheckboxSelect.item_enabled item true s).2.isOpen = false) := by
  constructor
  · intro h
    simp [BaseCheckboxSelect.item_enabled, Dropdown.openMenu, h]
  · intro el h
    simp [BaseCheckboxSelect.item_enabled, Dropdown.openMenu, Dropdown.closeMenu, h]

/-- C1 witness: both branches of the amended claim instantiated on `exMenu`:
the absent `q` raises and leaves the menu open; the present enabled `a`
reports `true` and leaves the menu closed. -/
theorem item_enabled_paths_witness :
    (BaseCheckboxSelect.item_enabled "q" true exMenu
        = (.error (.SelectItemNotFound "q" none), Dropdown.openMenu exMenu))
      ∧ BaseCheckboxSelect.item_enabled "a" true exMenu
          = (.ok true, Dropdown.closeMenu (Dropdown.openMenu exMenu)) := by
  constructor
  · exact ((item_enabled_paths exMenu "q").1 (by decide)).1
  · exact ((item_enabled_paths exMenu "a").2 ⟨"a", false, false, true⟩ (by decide)).1

/-- C10: for a label absent from the rendered menu, both
`BaseCheckboxSelect.item_select` and `item_deselect` raise
`SelectItemNotFound` whose message payload enumerates the currently
available item labels, because the per-item lookup goes through the
inherited `BaseSelect.item_element` (with `close=False`), whose handler
interpolates the `items` property. -/
theorem checkbox_absent_label_error (s : MenuState) (L : String) (c : Bool)
    (habs : ∀ it ∈ s.items, it.label ≠ L) :
    (BaseCheckboxSelect.item_select [L] c s).1
        = .error (.SelectItemNotFound L (some (Dropdown.itemLabels s)))
      ∧ (BaseCheckboxSelect.item_deselect [L] c s).1
        = .error (.SelectItemNotFound L (some (Dropdown.itemLabels s))) := by
  have h : s.items.find? (inputOf L) = none := by
    rw [List.find?_eq_none]
    intro it hit hx
    exact absurd (inputOf_spec hx).1 (habs it hit)
  rw [item_select_single_absent L c s h, item_deselect_single_absent L c s h]
  exact ⟨rfl, rfl⟩

/-- C10 witness: deselecting or selecting the absent `x` on `exMenu` raises
`SelectItemNotFound` listing `a`, `b`, `c`. -/
theorem checkbox_absent_label_error_witness :
    (BaseCheckboxSelect.item_select ["x"] true exMenu).1
        = .error (.SelectItemNotFound "x" (some ["a", "b", "c"]))
      ∧ (BaseCheckboxSelect.item_deselect ["x"] true exMenu).1
        = .error (.SelectItemNotFound "x" (some ["a", "b", "c"])) :=
  checkbox_absent_label_error exMenu "x" true (by decide)

/-- C7 counterexample: on the concrete closed menu `exMenu` (on which no
close has happened yet), `fill({"x": True})` with the absent label `x`
performs two menu closes — one from the `items` property interpolated into
the `SelectItemNotFound` message and one from the `finally` — refuting the
claim that exactly one close is performed even when an entry raises. -/
theorem fill_two_closes_cex :
    exMenu.closeCount = 0
      ∧ (BaseCheckboxSelect.fill [("x", true)] exMenu).2.closeCount = 2 := ⟨rfl, rfl⟩

/-- A `fill` loop in which every entry succeeds performs no close at all
(each per-entry call passes `close=False`). -/
theorem fill_loop_ok_closeCount :
    ∀ (entries : List (String × Bool)) (s : MenuState),
      (BaseCheckboxSelect.fill_loop entries s).1 = .ok ()
        → (BaseCheckboxSelect.fill_loop entries s).2.closeCount = s.closeCount
  | [], _, _ => rfl
  | (item, value) :: rest, s, h => by
      cases hf : s.items.find? (inputOf item) with
      | none =>
          exfalso
          cases value <;>
            simp [BaseCheckboxSelect.fill_loop,
                  item_select_single_absent item false s hf,
                  item_deselect_single_absent item false s hf] at h
      | some el =>
          cases value with
          | false =>
              have hd := item_deselect_single_found item false s el hf
              simp only [BaseCheckboxSelect.fill_loop, Bool.false_eq_true, if_false, hd] at h ⊢
              rw [fill_loop_ok_closeCount rest _ h]
              simp
          | true =>
              have hd := item_select_single_found item false s el hf
              simp only [BaseCheckboxSelect.fill_loop, if_true, hd] at h ⊢
              rw [fill_loop_ok_closeCount rest _ h]
              simp

/-- C7 (amended): `fill` applies `item_select` (for `True`) or
`item_deselect` (for `False`) to each entry with `close=False`, and its
`finally` performs exactly one close on top of whatever the loop did; on a
run where no entry raises — in particular on the empty mapping — exactly
one close happens in total, but when an entry raises `SelectItemNotFound`
the error-message construction closes the menu once more, so the whole call
performs two closes.  The menu ends closed in every case. -/
theorem fill_close_accounting (entries : List (String × Bool)) (s : MenuState) :
    ((BaseCheckboxSelect.fill entries s).2.closeCount
        = (BaseCheckboxSelect.fill_loop entries s).2.closeCount + 1)
      ∧ (BaseCheckboxSelect.fill entries s).2.isOpen = false
      ∧ ((BaseCheckboxSelect.fill_loop entries s).1 = .ok ()
          → (BaseCheckboxSelect.fill entries s).2.closeCount = s.closeCount + 1)
      ∧ (∀ L, s.items.find? (inputOf L) = none →
          (BaseCheckboxSelect.fill ((L, true) :: entries) s).2.closeCount
            = s.closeCount + 2) := by
  refine ⟨?_, ?_, ?_, ?_⟩
  · rw [fill_eq]
    simp [Dropdown.closeMenu]
  · rw [fill_eq]
    simp [Dropdown.closeMenu]
  · intro h
    rw [fill_eq]
    simp [Dropdown.closeMenu, fill_loop_ok_closeCount entries s h]
  · intro L hL
    rw [fill_eq]
    have hl : BaseCheckboxSelect.fill_loop ((L, true) :: entries) s
        = (.error (.SelectItemNotFound L (some (Dropdown.itemLabels s))),
           { s with isOpen := false, closeCount := s.closeCount + 1 }) := by
      simp [BaseCheckboxSelect.fill_loop, item_select_single_absent L false s hL]
    rw [hl]
    simp [Dropdown.closeMenu]

/-- C7 witness: on `exMenu` the loop for `{"a": True}` succeeds and the
whole `fill` performs exactly one close; prefixing the absent entry `x`
makes the whole call perform two. -/
theorem fill_close_accounting_witness :
    (BaseCheckboxSelect.fill [("a", true)] exMenu).2.closeCount = exMenu.closeCount + 1
      ∧ (BaseCheckboxSelect.fill [("x", true), ("a", true)] exMenu).2.closeCount
          = exMenu.closeCount + 2 :=
  ⟨(fill_close_accounting [("a", true)] exMenu).2.2.1 (by decide),
   (fill_close_accounting [("a", true)] exMenu).2.2.2 "x" (by decide)⟩

/-- C3: `item_select` clicks an item's toggle only when the item is not
already selected and `item_deselect` clicks only when it is selected; as a
consequence a second `item_select([L])` right after a first performs no
click and leaves `L` selected, and `item_deselect([L])` on an unselected
`L` performs no click and changes no row. -/
theorem checkbox_toggle_idempotence (s : MenuState) (L : String) (c : Bool) (el : Item)
    (hfind : s.items.find? (inputOf L) = some el) :
    ((el.selected = true →
        (BaseCheckboxSelect.item_select [L] c s).2.clickCount = s.clickCount
          ∧ (BaseCheckboxSelect.item_select [L] c s).2.items = s.items)
      ∧ (el.selected = false →
        (BaseCheckboxSelect.item_select [L] c s).2.clickCount = s.clickCount + 1))
    ∧ (el.selected = false →
        (BaseCheckboxSelect.item_deselect [L] c s).2.clickCount = s.clickCount
          ∧ (BaseCheckboxSelect.item_deselect [L] c s).2.items = s.items)
    ∧ ((BaseCheckboxSelect.item_select [L] c s).1 = .ok ()
      ∧ (BaseCheckboxSelect.item_select [L] c s).2.items.find? (inputOf L)
          = some { el with selected := true }
      ∧ (BaseCheckboxSelect.item_select [L] c
            (BaseCheckboxSelect.item_select [L] c s).2).2.items
          = (BaseCheckboxSelect.item_select [L] c s).2.items
      ∧ (BaseCheckboxSelect.item_select [L] c
            (BaseCheckboxSelect.item_select [L] c s).2).2.clickCount
          = (BaseCheckboxSelect.item_select [L] c s).2.clickCount) := by
  have h1 := item_select_single_found L c s el hfind
  have hfind1 : (BaseCheckboxSelect.item_select [L] c s).2.items.find? (inputOf L)
      = some { el with selected := true } := by
    rw [h1]
    show (setSel L true s.items).find? (inputOf L) = some { el with selected := true }
    rw [find?_inputOf_setSel]
    simp [hfind]
  have h2 := item_select_single_found L c (BaseCheckboxSelect.item_select [L] c s).2
      { el with selected := true } hfind1
  refine ⟨⟨?_, ?_⟩, ?_, ?_, ?_, ?_, ?_⟩
  · intro hv
    rw [h1]
    exact ⟨by simp [hv], by simp [setSel_eq_self hfind hv]⟩
  · intro hv
    rw [h1]
    simp [hv]
  · intro hv
    rw [item_deselect_single_found L c s el hfind]
    exact ⟨by simp [hv], by simp [setSel_eq_self hfind hv]⟩
  · rw [h1]
  · exact hfind1
  · rw [h2]
    exact setSel_eq_self hfind1 rfl
  · rw [h2]
    simp

/-- C3 witness: on `exMenu`, selecting the unselected `a` clicks once; the
immediately repeated selection clicks zero times. -/
theorem checkbox_toggle_idempotence_witness :
    (BaseCheckboxSelect.item_select ["a"] true exMenu).2.clickCount = exMenu.clickCount + 1
      ∧ (BaseCheckboxSelect.item_select ["a"] true
          (BaseCheckboxSelect.item_select ["a"] true exMenu).2).2.clickCount
        = (BaseCheckboxSelect.item_select ["a"] true exMenu).2.clickCount := by
  have h := checkbox_toggle_idempotence exMenu "a" true
      ⟨"a", false, false, true⟩ (by decide)
  exact ⟨h.1.2 rfl, h.2.2.2.2.2⟩

/-- Looking a key up right after writing it yields the written value. -/
theorem lookup_dictInsert_self (d : List (String × Bool)) (k : String) (v : Bool) :
    (dictInsert d k v).lookup k = some v := by
  induction d with
  | nil => simp [dictInsert]
  | cons p rest ih =>
      obtain ⟨k1, v1⟩ := p
      by_cases h : k1 = k
      · subst h
        simp [dictInsert]
      · have hb : (k1 == k) = false := by simp [h]
        have hb2 : (k == k1) = false := by simp [Ne.symm h]
        simp [dictInsert, hb, List.lookup_cons, hb2, ih]

/-- Writing one key leaves every other key's lookup unchanged. -/
theorem lookup_dictInsert_ne (d : List (String × Bool)) (k k2 : String) (v : Bool)
    (h : k2 ≠ k) :
    (dictInsert d k v).lookup k2 = d.lookup k2 := by
  induction d with
  | nil =>
      have hb : (k2 == k) = false := by simp [h]
      simp [dictInsert, List.lookup_cons, hb]
  | cons p rest ih =>
      obtain ⟨k1, v1⟩ := p
      by_cases h1 : k1 = k
      · subst h1
        have hb : (k2 == k1) = false := by simp [h]
        simp [dictInsert, List.lookup_cons, hb]
      · have hb : (k1 == k) = false := by simp [h1]
        simp [dictInsert, hb, List.lookup_cons, ih]

/-- Writing a key appends it to the key sequence exactly when it is new. -/
theorem keys_dictInsert (d : List (String × Bool)) (k : String) (v : Bool) :
    (dictInsert d k v).map Prod.fst
      = if k ∈ d.map Prod.fst then d.map Prod.fst else d.map Prod.fst ++ [k] := by
  induction d with
  | nil => simp [dictInsert]
  | cons p rest ih =>
      obtain ⟨k1, v1⟩ := p
      by_cases h1 : k1 = k
      · subst h1
        simp [dictInsert]
      · have hb : (k1 == k) = false := by simp [h1]
        have hne : ¬k = k1 := Ne.symm h1
        by_cases hm : k ∈ rest.map Prod.fst
        · simp [dictInsert, hb, ih, hm, hne]
        · simp [dictInsert, hb, ih, hm, hne]

/-- The deduplicated-label sequence only depends on the membership of the
already-seen set. -/
theorem dedupNew_congr :
    ∀ (ls : List String) (s1 s2 : List String),
      (∀ x, x ∈ s1 ↔ x ∈ s2) → dedupNew s1 ls = dedupNew s2 ls
  | [], _, _, _ => rfl
  | l :: rest, s1, s2, h => by
      by_cases hm : l ∈ s1
      · simp only [dedupNew, if_pos hm, if_pos ((h l).mp hm)]
        exact dedupNew_congr rest s1 s2 h
      · have hm2 : l ∉ s2 := fun hx => hm ((h l).mpr hx)
        simp only [dedupNew, if_neg hm, if_neg hm2]
        rw [dedupNew_congr rest (l :: s1) (l :: s2) (by intro x; simp [h x])]

/-- The lookup of a label in the dict built by `read`'s row loop: the last
row bearing the label wins; labels of no row fall back to the initial
accumulator. -/
theorem read_foldl_lookup :
    ∀ (rows : List Item) (acc : List (String × Bool)) (l : String),
      (rows.foldl (fun acc el => dictInsert acc el.label (rowSelected el)) acc).lookup l
        = match rows.reverse.find? (labelIs l) with
          | some it => some (rowSelected it)
          | none => acc.lookup l
  | [], acc, l => by simp
  | r :: rest, acc, l => by
      simp only [List.foldl_cons, List.reverse_cons]
      rw [read_foldl_lookup rest _ l, List.find?_append]
      cases hf : rest.reverse.find? (labelIs l) with
      | some it => simp
      | none =>
          simp only [Option.none_or]
          by_cases hl : r.label = l
          · have hp : labelIs l r = true := by simp [labelIs, hl]
            rw [List.find?_cons_of_pos _ hp]
            subst hl
            simp [lookup_dictInsert_self]
          · have hp : ¬labelIs l r = true := by simp [labelIs]; exact fun hx => absurd hx hl
            rw [List.find?_cons_of_neg _ hp]
            simp [lookup_dictInsert_ne acc r.label l (rowSelected r) (fun hx => hl hx.symm)]

/-- The key sequence of the dict built by `read`'s row loop: the initial
keys followed by the unseen labels in rendered first-occurrence order. -/
theorem read_foldl_keys :
    ∀ (rows : List Item) (acc : List (String × Bool)),
      (rows.foldl (fun acc el => dictInsert acc el.label (rowSelected el)) acc).map Prod.fst
        = acc.map Prod.fst ++ dedupNew (acc.map Prod.fst) (rows.map (·.label))
  | [], acc => by simp [dedupNew]
  | r :: rest, acc => by
      simp only [List.foldl_cons, List.map_cons]
      rw [read_foldl_keys rest _, keys_dictInsert]
      by_cases hm : r.label ∈ acc.map Prod.fst
      · rw [if_pos hm]
        simp only [dedupNew, if_pos hm]
      · rw [if_neg hm]
        simp only [dedupNew, if_neg hm]
        rw [dedupNew_congr (rest.map (·.label)) (acc.map Prod.fst ++ [r.label])
              (r.label :: acc.map Prod.fst) (by intro x; simp [or_comm])]
        simp

/-- C8: `BaseCheckboxSelect.read` returns a label-to-boolean mapping whose
keys are the rendered labels in rendered (first-occurrence) order with
duplicates collapsed; the value looked up for a label is that of the LAST
rendered row bearing it (last-write-wins), and the per-row value records
`False` whenever the row has no detectable toggle control. -/
theorem checkbox_read_mapping (s : MenuState) (l : String) :
    ((BaseCheckboxSelect.read s).1.lookup l
        = (s.items.reverse.find? (labelIs l)).map rowSelected)
      ∧ (BaseCheckboxSelect.read s).1.map Prod.fst = dedupNew [] (s.items.map (·.label))
      ∧ (∀ lab sel dis, rowSelected ⟨lab, sel, dis, false⟩ = false) := by
  have hr : (BaseCheckboxSelect.read s).1
      = s.items.foldl (fun acc el => dictInsert acc el.label (rowSelected el)) [] := rfl
  refine ⟨?_, ?_, ?_⟩
  · rw [hr, read_foldl_lookup]
    cases hf : s.items.reverse.find? (labelIs l) <;> simp
  · rw [hr, read_foldl_keys]
    simp
  · intro lab sel dis
    simp [rowSelected]

/-- With distinct rendered labels, the last row bearing a label is also the
first: forward and reverse lookups agree. -/
theorem find?_reverse_of_nodup :
    ∀ {its : List Item}, (its.map (·.label)).Nodup →
      ∀ l, its.reverse.find? (labelIs l) = its.find? (labelIs l)
  | [], _, l => rfl
  | it :: rest, h, l => by
      have hnd := List.nodup_cons.mp h
      simp only [List.reverse_cons]
      rw [List.find?_append]
      by_cases hm : labelIs l it = true
      · have hl : it.label = l := by simpa [labelIs, beq_iff_eq] using hm
        have hrest : rest.find? (labelIs l) = none := by
          rw [List.find?_eq_none]
          intro x hx hpx
          have hxl : x.label = l := by simpa [labelIs, beq_iff_eq] using hpx
          exact hnd.1 (by
            show it.label ∈ rest.map (fun x => x.label)
            rw [hl, ← hxl]
            exact List.mem_map_of_mem _ hx)
        have hrev : rest.reverse.find? (labelIs l) = none := by
          rw [List.find?_eq_none] at hrest ⊢
          intro x hx
          exact hrest x (List.mem_reverse.mp hx)
        rw [hrev, List.find?_cons_of_pos _ hm]
        simp [hm]
      · rw [find?_reverse_of_nodup hnd.2 l]
        cases hf : rest.find? (labelIs l) with
        | some x => simp [hf, List.find?_cons_of_neg _ hm]
        | none => simp [hf, List.find?_cons_of_neg _ hm]

/-- With distinct rendered labels, a row found through the checkbox item
locator is also what the plain row locator finds. -/
theorem find?_labelIs_of_inputOf :
    ∀ {its : List Item}, (its.map (·.label)).Nodup →
      ∀ {l : String} {el : Item}, its.find? (inputOf l) = some el →
        its.find? (labelIs l) = some el
  | [], _, l, el, h => by simp at h
  | it :: rest, hnd, l, el, h => by
      have hnd1 := List.nodup_cons.mp hnd
      by_cases hm : inputOf l it = true
      · rw [List.find?_cons_of_pos _ hm] at h
        injection h with h
        subst h
        exact List.find?_cons_of_pos _ (by simp [labelIs, (inputOf_spec hm).1])
      · by_cases hm2 : labelIs l it = true
        · exfalso
          rw [List.find?_cons_of_neg _ hm] at h
          have hel : el ∈ rest := List.mem_of_find?_eq_some h
          have hpel : inputOf l el = true := List.find?_some h
          have hl1 : it.label = l := by simpa [labelIs, beq_iff_eq] using hm2
          have hl2 : el.label = l := (inputOf_spec hpel).1
          exact hnd1.1 (by
            show it.label ∈ rest.map (fun x => x.label)
            rw [hl1, ← hl2]
            exact List.mem_map_of_mem _ hel)
        · rw [List.find?_cons_of_neg _ hm] at h
          rw [List.find?_cons_of_neg _ hm2]
          exact find?_labelIs_of_inputOf hnd1.2 h

/-- A `fill` loop entry `(i, True)` whose label is present steps to the
state after `item_select([i], close=False)`. -/
theorem fill_loop_cons_true (i : String) (rest : List (String × Bool)) (s : MenuState)
    (el : Item) (h : s.items.find? (inputOf i) = some el) :
    BaseCheckboxSelect.fill_loop ((i, true) :: rest) s
      = BaseCheckboxSelect.fill_loop rest (BaseCheckboxSelect.item_select [i] false s).2 := by
  have h1 := item_select_single_found i false s el h
  simp [BaseCheckboxSelect.fill_loop, h1]

/-- A `fill` loop entry `(i, False)` whose label is present steps to the
state after `item_deselect([i], close=False)`. -/
theorem fill_loop_cons_false (i : String) (rest : List (String × Bool)) (s : MenuState)
    (el : Item) (h : s.items.find? (inputOf i) = some el) :
    BaseCheckboxSelect.fill_loop ((i, false) :: rest) s
      = BaseCheckboxSelect.fill_loop rest (BaseCheckboxSelect.item_deselect [i] false s).2 := by
  have h1 := item_deselect_single_found i false s el h
  simp [BaseCheckboxSelect.fill_loop, h1]

/-- C4: on a checkbox menu whose distinctly-labelled rendered rows include
`a`, `b`, `c` (each with a toggle control),
`fill({"a": True, "b": False, "c": True})` succeeds and a subsequent
`read()` reports `a ↦ True`, `b ↦ False`, `c ↦ True`, while every other
rendered item keeps its prior recorded state (its toggle state, `False`
when it has no toggle). -/
theorem fill_read_roundtrip (s : MenuState)
    (hnd : (s.items.map (·.label)).Nodup)
    (ha : ∃ el, s.items.find? (inputOf "a") = some el)
    (hb : ∃ el, s.items.find? (inputOf "b") = some el)
    (hc : ∃ el, s.items.find? (inputOf "c") = some el) :
    (BaseCheckboxSelect.fill [("a", true), ("b", false), ("c", true)] s).1 = .ok ()
      ∧ (BaseCheckboxSelect.read
            (BaseCheckboxSelect.fill [("a", true), ("b", false), ("c", true)] s).2).1.lookup "a"
          = some true
      ∧ (BaseCheckboxSelect.read
            (BaseCheckboxSelect.fill [("a", true), ("b", false), ("c", true)] s).2).1.lookup "b"
          = some false
      ∧ (BaseCheckboxSelect.read
            (BaseCheckboxSelect.fill [("a", true), ("b", false), ("c", true)] s).2).1.lookup "c"
          = some true
      ∧ (∀ l, l ≠ "a" → l ≠ "b" → l ≠ "c" →
          (BaseCheckboxSelect.read
              (BaseCheckboxSelect.fill [("a", true), ("b", false), ("c", true)] s).2).1.lookup l
            = (s.items.find? (labelIs l)).map rowSelected) := by
  obtain ⟨ea, hea⟩ := ha
  obtain ⟨eb, heb⟩ := hb
  obtain ⟨ec, hec⟩ := hc
  have step1 := fill_loop_cons_true "a" [("b", false), ("c", true)] s ea hea
  have hs1 : (BaseCheckboxSelect.item_select ["a"] false s).2.items
      = setSel "a" true s.items := by
    rw [item_select_single_found "a" false s ea hea]
  have hfb : (BaseCheckboxSelect.item_select ["a"] false s).2.items.find? (inputOf "b")
      = some eb := by
    rw [hs1, find?_inputOf_setSel, if_neg (by decide)]
    exact heb
  have step2 := fill_loop_cons_false "b" [("c", true)]
      (BaseCheckboxSelect.item_select ["a"] false s).2 eb hfb
  have hs2 : (BaseCheckboxSelect.item_deselect ["b"] false
        (BaseCheckboxSelect.item_select ["a"] false s).2).2.items
      = setSel "b" false (setSel "a" true s.items) := by
    rw [item_deselect_single_found "b" false _ eb hfb]
    show setSel "b" false (BaseCheckboxSelect.item_select ["a"] false s).2.items
        = setSel "b" false (setSel "a" true s.items)
    rw [hs1]
  have hfc : (BaseCheckboxSelect.item_deselect ["b"] false
        (BaseCheckboxSelect.item_select ["a"] false s).2).2.items.find? (inputOf "c")
      = some ec := by
    rw [hs2, find?_inputOf_setSel, if_neg (by decide), find?_inputOf_setSel,
        if_neg (by decide)]
    exact hec
  have step3 := fill_loop_cons_true "c" []
      (BaseCheckboxSelect.item_deselect ["b"] false
        (BaseCheckboxSelect.item_select ["a"] false s).2).2 ec hfc
  have hs3 : (BaseCheckboxSelect.item_select ["c"] false
        (BaseCheckboxSelect.item_deselect ["b"] false
          (BaseCheckboxSelect.item_select ["a"] false s).2).2).2.items
      = setSel "c" true (setSel "b" false (setSel "a" true s.items)) := by
    rw [item_select_single_found "c" false _ ec hfc]
    show setSel "c" true (BaseCheckboxSelect.item_deselect ["b"] false
          (BaseCheckboxSelect.item_select ["a"] false s).2).2.items
        = setSel "c" true (setSel "b" false (setSel "a" true s.items))
    rw [hs2]
  have hloop : BaseCheckboxSelect.fill_loop [("a", true), ("b", false), ("c", true)] s
      = (.ok (), (BaseCheckboxSelect.item_select ["c"] false
          (BaseCheckboxSelect.item_deselect ["b"] false
            (BaseCheckboxSelect.item_select ["a"] false s).2).2).2) := by
    rw [step1, step2, step3]
    rfl
  have hitems : (BaseCheckboxSelect.fill [("a", true), ("b", false), ("c", true)] s).2.items
      = setSel "c" true (setSel "b" false (setSel "a" true s.items)) := by
    rw [fill_eq, hloop, ← hs3]
    rfl
  have hok : (BaseCheckboxSelect.fill [("a", true), ("b", false), ("c", true)] s).1
      = .ok () := by
    rw [fill_eq, hloop]
  have hnd3 : ((BaseCheckboxSelect.fill [("a", true), ("b", false), ("c", true)] s).2.items.map
      (·.label)).Nodup := by
    rw [hitems, labels_setSel, labels_setSel, labels_setSel]
    exact hnd
  have hread : ∀ l, (BaseCheckboxSelect.read
        (BaseCheckboxSelect.fill [("a", true), ("b", false), ("c", true)] s).2).1.lookup l
      = ((BaseCheckboxSelect.fill [("a", true), ("b", false), ("c", true)] s).2.items.find?
          (labelIs l)).map rowSelected := by
    intro l
    have h0 : (BaseCheckboxSelect.read
          (BaseCheckboxSelect.fill [("a", true), ("b", false), ("c", true)] s).2).1
        = (BaseCheckboxSelect.fill [("a", true), ("b", false), ("c", true)] s).2.items.foldl
            (fun acc el => dictInsert acc el.label (rowSelected el)) [] := rfl
    rw [h0, read_foldl_lookup, find?_reverse_of_nodup hnd3 l]
    cases hf : (BaseCheckboxSelect.fill [("a", true), ("b", false), ("c", true)] s).2.items.find?
        (labelIs l) <;> simp
  have hia : ea.hasInput = true := (inputOf_spec (List.find?_some hea)).2
  have hib : eb.hasInput = true := (inputOf_spec (List.find?_some heb)).2
  have hic : ec.hasInput = true := (inputOf_spec (List.find?_some hec)).2
  refine ⟨hok, ?_, ?_, ?_, ?_⟩
  · rw [hread, hitems, find?_labelIs_setSel, if_neg (by decide), find?_labelIs_setSel,
        if_neg (by decide), find?_labelIs_setSel, if_pos rfl,
        find?_labelIs_of_inputOf hnd hea]
    simp [hia, rowSelected]
  · rw [hread, hitems, find?_labelIs_setSel, if_neg (by decide), find?_labelIs_setSel,
        if_pos rfl, find?_labelIs_setSel, if_neg (by decide),
        find?_labelIs_of_inputOf hnd heb]
    simp [hib, rowSelected]
  · rw [hread, hitems, find?_labelIs_setSel, if_pos rfl, find?_labelIs_setSel,
        if_neg (by decide), find?_labelIs_setSel, if_neg (by decide),
        find?_labelIs_of_inputOf hnd hec]
    simp [hic, rowSelected]
  · intro l hla hlb hlc
    rw [hread, hitems, find?_labelIs_setSel, if_neg hlc, find?_labelIs_setSel, if_neg hlb,
        find?_labelIs_setSel, if_neg hla]

/-- C4 witness: on the concrete menu `exMenu` (`b` initially selected),
filling `{"a": True, "b": False, "c": True}` and reading back yields
`a ↦ True`, `b ↦ False`, `c ↦ True`. -/
theorem fill_read_roundtrip_witness :
    (BaseCheckboxSelect.read
          (BaseCheckboxSelect.fill [("a", true), ("b", false), ("c", true)] exMenu).2).1.lookup "a"
        = some true
      ∧ (BaseCheckboxSelect.read
          (BaseCheckboxSelect.fill [("a", true), ("b", false), ("c", true)] exMenu).2).1.lookup "b"
        = some false
      ∧ (BaseCheckboxSelect.read
          (BaseCheckboxSelect.fill [("a", true), ("b", false), ("c", true)] exMenu).2).1.lookup "c"
        = some true := by
  have h := fill_read_roundtrip exMenu (by decide)
      ⟨⟨"a", false, false, true⟩, by decide⟩
      ⟨⟨"b", true, false, true⟩, by decide⟩
      ⟨⟨"c", false, false, true⟩, by decide⟩
  exact ⟨h.2.1, h.2.2.1, h.2.2.2.1⟩

end WPF5
